import Mathlib

/-!
Shallow embedding of the `ford` legacy C calculator
(`src/ford-legacy-converter/legacy-code/main.c` and `utils.c`).

IEEE-754 binary64 values are modelled by the inductive type `Double`:
NaN, signed infinities, negative zero, and finite values carried as exact
rationals (positive zero is `num 0`).  The comparison operators (`beq` for
the C `==`, `gt` for the C `>`) follow IEEE-754 ordering: any comparison
involving NaN is false, and negative zero compares equal to positive zero.
Arithmetic on finite values is exact rational arithmetic (rounding is
immaterial to the claims, which concern control flow, the error data model
and comparison semantics); special values propagate per IEEE-754.
-/

/-- Model of an IEEE-754 binary64 value: NaN, signed infinity,
negative zero, or a finite value as an exact rational
(`num 0` is positive zero). -/
inductive Double : Type where
  | nan : Double
  | inf : Bool → Double
  | negZero : Double
  | num : ℚ → Double
deriving DecidableEq

namespace Double

/-- Numeric value of a finite `Double` (negative zero has value 0). -/
def finVal : Double → ℚ
  | negZero => 0
  | num q => q
  | _ => 0

/-- Whether a `Double` is a finite value (including both zeros). -/
def isFinite : Double → Bool
  | negZero => true
  | num _ => true
  | _ => false

/-- IEEE-754 equality, the C `==` operator on doubles: false whenever an
operand is NaN; `-0.0 == 0.0` is true; otherwise compares values. -/
def beq : Double → Double → Bool
  | nan, _ => false
  | _, nan => false
  | inf s, inf t => s == t
  | inf _, negZero => false
  | inf _, num _ => false
  | negZero, inf _ => false
  | num _, inf _ => false
  | a, b => decide (finVal a = finVal b)

/-- IEEE-754 greater-than, the C `>` operator on doubles: false whenever an
operand is NaN; infinities bound all finite values. -/
def gt : Double → Double → Bool
  | nan, _ => false
  | _, nan => false
  | inf s, inf t => !s && t
  | inf s, negZero => !s
  | inf s, num _ => !s
  | negZero, inf t => t
  | num _, inf t => t
  | a, b => decide (finVal a > finVal b)

/-- Sign bit of a non-NaN `Double` (true = negative). -/
def signBit : Double → Bool
  | nan => false
  | inf s => s
  | negZero => true
  | num q => decide (q < 0)

/-- A zero with the given sign bit. -/
def zeroOfSign (s : Bool) : Double := if s then negZero else num 0

/-- IEEE-754 negation. -/
def neg : Double → Double
  | nan => nan
  | inf s => inf (!s)
  | negZero => num 0
  | num q => if q = 0 then negZero else num (-q)

/-- IEEE-754 addition (exact on finite values; round-to-nearest gives a
positive zero when opposite finite operands cancel, and `-0 + -0 = -0`). -/
def add : Double → Double → Double
  | nan, _ => nan
  | _, nan => nan
  | inf s, inf t => if s = t then inf s else nan
  | inf s, negZero => inf s
  | inf s, num _ => inf s
  | negZero, inf t => inf t
  | num _, inf t => inf t
  | a, b =>
    let v := finVal a + finVal b
    if v = 0 then
      if a = negZero ∧ b = negZero then negZero else num 0
    else num v

/-- IEEE-754 subtraction, as addition of the negation. -/
def sub (a b : Double) : Double := add a (neg b)

/-- IEEE-754 multiplication (exact on finite values; a zero product carries
the XOR of the operand signs; infinity times zero is NaN). -/
def mul : Double → Double → Double
  | nan, _ => nan
  | _, nan => nan
  | inf s, inf t => inf (xor s t)
  | inf _, negZero => nan
  | inf s, num q => if q = 0 then nan else inf (xor s (decide (q < 0)))
  | negZero, inf _ => nan
  | num q, inf t => if q = 0 then nan else inf (xor (decide (q < 0)) t)
  | a, b =>
    let v := finVal a * finVal b
    if v = 0 then zeroOfSign (xor (signBit a) (signBit b))
    else num v

/-- IEEE-754 division (exact on finite values; `0/0` and `inf/inf` are NaN;
a nonzero finite value over zero is a signed infinity; a finite value over
infinity is a signed zero). -/
def div : Double → Double → Double
  | nan, _ => nan
  | _, nan => nan
  | inf _, inf _ => nan
  | inf s, negZero => inf (!s)
  | inf s, num q => inf (xor s (decide (q < 0)))
  | negZero, inf t => zeroOfSign (xor true t)
  | num q, inf t => zeroOfSign (xor (decide (q < 0)) t)
  | a, b =>
    if finVal b = 0 then
      if finVal a = 0 then nan
      else inf (xor (signBit a) (signBit b))
    else
      let v := finVal a / finVal b
      if v = 0 then zeroOfSign (xor (signBit a) (signBit b))
      else num v

/-- Positive zero, the C literal `0.0`. -/
def zero : Double := num 0

end Double

/-- Embedding of the C struct `CalculationResult` from `main.c`:
a double `result`, an int `error_code`, and the `error_message` text. -/
structure CalculationResult : Type where
  result : Double
  error_code : Int
  error_message : String
deriving DecidableEq

/-- Embedding of `add` from `main.c`: `return a + b;`. -/
def add (a b : Double) : Double := Double.add a b

/-- Embedding of `subtract` from `main.c`: `return a - b;`. -/
def subtract (a b : Double) : Double := Double.sub a b

/-- Embedding of `multiply` from `main.c`: `return a * b;`. -/
def multiply (a b : Double) : Double := Double.mul a b

/-- Embedding of `divide` from `main.c`: if `b == 0.0` it returns the error
record with code 1, message `"Division by zero error"` and result `0.0`;
otherwise the success record with `a / b`, code 0 and the empty message. -/
def divide (a b : Double) : CalculationResult :=
  if Double.beq b Double.zero then
    { result := Double.zero, error_code := 1,
      error_message := "Division by zero error" }
  else
    { result := Double.div a b, error_code := 0, error_message := "" }

/-- Embedding of `get_max` from `utils.c`: `if (a > b) return a; return b;`. -/
def get_max (a b : Double) : Double :=
  if Double.gt a b then a else b

/-- Two-digit rendering of a natural number below 100, as `printf` pads the
fractional part of `%.2f`. -/
def twoDigits (n : Nat) : String :=
  (if n < 10 then "0" else "") ++ toString n

/-- Number of hundredths in a nonnegative rational, rounded to nearest with
ties to even, as `printf` rounds `%.2f`. -/
def roundCents (a : ℚ) : Nat :=
  let n : Int := ⌊a * 100⌋
  let frac : ℚ := a * 100 - n
  (if frac < 1/2 then n
   else if frac > 1/2 then n + 1
   else if n % 2 = 0 then n else n + 1).toNat

/-- Model of `printf("%.2f", d)`: the double rendered with exactly two
digits after the decimal point (special values render as glibc prints
them). -/
def fmt2 (d : Double) : String :=
  match d with
  | .nan => "nan"
  | .inf s => if s then "-inf" else "inf"
  | .negZero => "-0.00"
  | .num q =>
    let c := roundCents |q|
    (if q < 0 then "-" else "") ++ toString (c / 100) ++ "." ++ twoDigits (c % 100)

/-- The banner and the three prompts `main` prints, in order, before the
dispatch on the operator character. -/
def preamble : List String :=
  ["=== Legacy C Calculator ===\n",
   "Enter first number: ",
   "Enter operation (+, -, *, /): ",
   "Enter second number: "]

/-- Embedding of `main` from `main.c` after the three reads have produced
`num1`, `operation` and `num2`: the list of strings printed to standard
output, in order, paired with the process exit status.  The `switch`
dispatch becomes a chain of equality tests on the operator character. -/
def mainRun (num1 : Double) (operation : Char) (num2 : Double) :
    List String × Int :=
  if operation = '+' then
    (preamble ++ ["Result: " ++ fmt2 (add num1 num2) ++ "\n"], 0)
  else if operation = '-' then
    (preamble ++ ["Result: " ++ fmt2 (subtract num1 num2) ++ "\n"], 0)
  else if operation = '*' then
    (preamble ++ ["Result: " ++ fmt2 (multiply num1 num2) ++ "\n"], 0)
  else if operation = '/' then
    let result := divide num1 num2
    if result.error_code = 0 then
      (preamble ++ ["Result: " ++ fmt2 result.result ++ "\n"], 0)
    else
      (preamble ++ ["Error: " ++ result.error_message ++ "\n"], 1)
  else
    (preamble ++ ["Invalid operation!\n"], 1)

/-- C1: for every double `a`, `divide a 0.0` returns the record with
`error_code = 1`, `result = 0.0` and `error_message`
exactly `"Division by zero error"`. -/
theorem divide_by_zero_error (a : Double) :
    divide a Double.zero =
      { result := Double.zero, error_code := 1,
        error_message := "Division by zero error" } := by
  simp [divide, Double.beq, Double.zero, Double.finVal]

/-- C2: for every pair of doubles `a`, `b` with `b != 0.0` (the IEEE-754
comparison, so every `b` that is not a zero, NaN included), `divide a b`
returns the record with `error_code = 0`, `result = a / b` and the empty
`error_message`. -/
theorem divide_nonzero_success (a b : Double)
    (h : Double.beq b Double.zero = false) :
    divide a b =
      { result := Double.div a b, error_code := 0, error_message := "" } := by
  simp [divide, h]

/-- Witness for C2 at `a = 10`, `b = 4`. -/
theorem divide_nonzero_success_witness :
    Double.beq (Double.num 4) Double.zero = false ∧
      divide (Double.num 10) (Double.num 4) =
        { result := Double.div (Double.num 10) (Double.num 4),
          error_code := 0, error_message := "" } :=
  ⟨by norm_num [Double.beq, Double.zero, Double.finVal],
   divide_nonzero_success (Double.num 10) (Double.num 4)
     (by norm_num [Double.beq, Double.zero, Double.finVal])⟩

/-- C3: every record returned by `divide` satisfies the data-model
invariant: `error_code = 1` implies `result = 0.0` and a non-empty
`error_message`, and `error_code = 0` implies an empty `error_message`. -/
theorem divide_result_invariant (a b : Double) :
    ((divide a b).error_code = 1 →
        (divide a b).result = Double.zero ∧ (divide a b).error_message ≠ "") ∧
      ((divide a b).error_code = 0 → (divide a b).error_message = "") := by
  unfold divide
  split <;> simp

/-- Witness for C3: the error branch at `a = 7, b = 0.0` and the success
branch at `a = 1, b = 2`. -/
theorem divide_result_invariant_witness :
    ((divide (Double.num 7) Double.zero).result = Double.zero ∧
      (divide (Double.num 7) Double.zero).error_message ≠ "") ∧
      (divide (Double.num 1) (Double.num 2)).error_message = "" :=
  ⟨(divide_result_invariant (Double.num 7) Double.zero).1
      (by norm_num [divide, Double.beq, Double.zero, Double.finVal]),
   (divide_result_invariant (Double.num 1) (Double.num 2)).2
      (by norm_num [divide, Double.beq, Double.zero, Double.finVal])⟩

/-- C4: when the operator is `/`, `main` calls `divide` on the two
operands; on `error_code = 0` it prints the result formatted to two
decimal places and exits with status 0, and on `error_code = 1` it
prints `Error: ` followed by the error message and exits with status 1. -/
theorem main_slash_dispatch (a b : Double) :
    ((divide a b).error_code = 0 →
        mainRun a '/' b =
          (preamble ++ ["Result: " ++ fmt2 (divide a b).result ++ "\n"], 0)) ∧
      ((divide a b).error_code = 1 →
        mainRun a '/' b =
          (preamble ++ ["Error: " ++ (divide a b).error_message ++ "\n"], 1)) := by
  constructor <;> intro h <;> simp [mainRun, h]

/-- Witness for C4: the success branch at `10 / 4` and the error branch
at `7 / 0`. -/
theorem main_slash_dispatch_witness :
    mainRun (Double.num 10) '/' (Double.num 4) =
        (preamble ++
          ["Result: " ++ fmt2 (divide (Double.num 10) (Double.num 4)).result ++ "\n"],
          0) ∧
      mainRun (Double.num 7) '/' Double.zero =
        (preamble ++
          ["Error: " ++ (divide (Double.num 7) Double.zero).error_message ++ "\n"],
          1) :=
  ⟨(main_slash_dispatch (Double.num 10) (Double.num 4)).1
      (by norm_num [divide, Double.beq, Double.zero, Double.finVal]),
   (main_slash_dispatch (Double.num 7) Double.zero).2
      (by norm_num [divide, Double.beq, Double.zero, Double.finVal])⟩

/-- C5: for every operator character other than `+`, `-`, `*` and `/`,
`main` prints `Invalid operation!` and exits with status 1, and its
behavior does not depend on the operands — no arithmetic operation is
attempted. -/
theorem main_invalid_operator (a b a2 b2 : Double) (op : Char)
    (h1 : op ≠ '+') (h2 : op ≠ '-') (h3 : op ≠ '*') (h4 : op ≠ '/') :
    mainRun a op b = (preamble ++ ["Invalid operation!\n"], 1) ∧
      mainRun a op b = mainRun a2 op b2 := by
  unfold mainRun
  rw [if_neg h1, if_neg h2, if_neg h3, if_neg h4,
    if_neg h1, if_neg h2, if_neg h3, if_neg h4]
  exact ⟨rfl, rfl⟩

/-- Witness for C5 at the operator `%` with operands `4, 2` and `9, 9`. -/
theorem main_invalid_operator_witness :
    mainRun (Double.num 4) '%' (Double.num 2) =
        (preamble ++ ["Invalid operation!\n"], 1) ∧
      mainRun (Double.num 4) '%' (Double.num 2) =
        mainRun (Double.num 9) '%' (Double.num 9) :=
  main_invalid_operator (Double.num 4) (Double.num 2) (Double.num 9)
    (Double.num 9) '%' (by decide) (by decide) (by decide) (by decide)

/-- C6: `add`, `subtract` and `multiply` return exactly the IEEE-754
sum, difference and product of their operands (in the model, the `Double`
operations `Double.add`, `Double.sub`, `Double.mul`); each is a total
function on all doubles, so none of them can fail. -/
theorem add_subtract_multiply_exact (a b : Double) :
    add a b = Double.add a b ∧ subtract a b = Double.sub a b ∧
      multiply a b = Double.mul a b :=
  ⟨rfl, rfl, rfl⟩

/-- C7: `divide` takes its failure branch exactly when `b == 0.0` holds
under IEEE-754 equality, and that comparison is an exact test: it is true
precisely for the two zeros (positive and negative), never for a merely
small `b`. -/
theorem divide_zero_test_exact (a b : Double) :
    (Double.beq b Double.zero = true → (divide a b).error_code = 1) ∧
      (Double.beq b Double.zero = false → (divide a b).error_code = 0) ∧
      (Double.beq b Double.zero = true ↔
        b = Double.num 0 ∨ b = Double.negZero) := by
  refine ⟨fun h => by simp [divide, h], fun h => by simp [divide, h], ?_⟩
  cases b <;> simp [Double.beq, Double.zero, Double.finVal]

/-- Witness for C7: `b = -0.0` triggers the failure branch, while the
tiny nonzero `b = 1/1000000` takes the success branch. -/
theorem divide_zero_test_exact_witness :
    (divide (Double.num 7) Double.negZero).error_code = 1 ∧
      (divide (Double.num 7) (Double.num (1/1000000))).error_code = 0 :=
  ⟨(divide_zero_test_exact (Double.num 7) Double.negZero).1
      (by norm_num [Double.beq, Double.zero, Double.finVal]),
   (divide_zero_test_exact (Double.num 7) (Double.num (1/1000000))).2.1
      (by norm_num [Double.beq, Double.zero, Double.finVal])⟩

/-- C8: the four arithmetic operations are deterministic and touch no
global state.  The C source declares no global variable and none of the
four functions reads or writes anything outside its parameters and
locals, so their embedding is a pure function of the operands: two
calls with equal inputs return identical results. -/
theorem operations_deterministic (a b a2 b2 : Double)
    (ha : a = a2) (hb : b = b2) :
    add a b = add a2 b2 ∧ subtract a b = subtract a2 b2 ∧
      multiply a b = multiply a2 b2 ∧ divide a b = divide a2 b2 := by
  subst ha
  subst hb
  exact ⟨rfl, rfl, rfl, rfl⟩

/-- Witness for C8 at `a = 6`, `b = 3`. -/
theorem operations_deterministic_witness :
    add (Double.num 6) (Double.num 3) = add (Double.num 6) (Double.num 3) ∧
      subtract (Double.num 6) (Double.num 3) =
        subtract (Double.num 6) (Double.num 3) ∧
      multiply (Double.num 6) (Double.num 3) =
        multiply (Double.num 6) (Double.num 3) ∧
      divide (Double.num 6) (Double.num 3) =
        divide (Double.num 6) (Double.num 3) :=
  operations_deterministic (Double.num 6) (Double.num 3)
    (Double.num 6) (Double.num 3) rfl rfl

/-- C9: for every double `a`, `divide a (-0.0)` takes the failure branch,
because IEEE-754 negative zero compares equal to `0.0`: the returned
record is the error record (`error_code = 1`, `result = 0.0`, the
division-by-zero message), not a record holding `a / -0.0`. -/
theorem divide_negative_zero (a : Double) :
    Double.beq Double.negZero Double.zero = true ∧
      divide a Double.negZero =
        { result := Double.zero, error_code := 1,
          error_message := "Division by zero error" } := by
  constructor
  · norm_num [Double.beq, Double.zero, Double.finVal]
  · simp [divide, Double.beq, Double.zero, Double.finVal]

/-- C10: `get_max a b` returns `a` when `a > b` and `b` otherwise; the
IEEE-754 comparison is false whenever `a` is NaN, so `get_max nan b = b`
for every `b`, and the function is not symmetric in the presence of
NaN: `get_max nan 1 = 1` while `get_max 1 nan = nan`. -/
theorem get_max_spec :
    (∀ a b : Double,
        (Double.gt a b = true → get_max a b = a) ∧
        (Double.gt a b = false → get_max a b = b)) ∧
      (∀ b : Double,
        Double.gt Double.nan b = false ∧ get_max Double.nan b = b) ∧
      get_max Double.nan (Double.num 1) = Double.num 1 ∧
      get_max (Double.num 1) Double.nan = Double.nan ∧
      get_max Double.nan (Double.num 1) ≠ get_max (Double.num 1) Double.nan := by
  refine ⟨fun a b => ⟨fun h => by simp [get_max, h], fun h => by simp [get_max, h]⟩,
    fun b => ⟨by cases b <;> simp [Double.gt], by simp [get_max, Double.gt]⟩,
    by simp [get_max, Double.gt], by simp [get_max, Double.gt], by simp [get_max, Double.gt]⟩

/-- Witness for C10: the comparison branches of `get_max` at `3, 2`
(true branch) and `2, 3` (false branch). -/
theorem get_max_spec_witness :
    get_max (Double.num 3) (Double.num 2) = Double.num 3 ∧
      get_max (Double.num 2) (Double.num 3) = Double.num 3 :=
  ⟨(get_max_spec.1 (Double.num 3) (Double.num 2)).1
      (by norm_num [Double.gt, Double.finVal]),
   (get_max_spec.1 (Double.num 2) (Double.num 3)).2
      (by norm_num [Double.gt, Double.finVal])⟩
